import Mathlib

/- Shallow embedding of the frontend's resilient WebSocket client and of the
incremental generated-image aggregator, translated from
src/frontend/src/hooks/useWebSocket.ts and
src/frontend/src/components/generation/GenerationConsole.tsx, together with
theorems about the connection state machine and the event fold. -/

namespace AbyFrontend

/- Lifecycle tag of one prediction, from the `status` union type of
`GeneratedImage` in useWebSocket.ts. -/
inductive Status where
  | starting
  | processing
  | succeeded
  | failed
  | canceled
deriving DecidableEq, Repr

/- The optional `metrics` payload; `predict_time` is an opaque numeric
payload for the claims considered here, carried but never computed with. -/
structure Metrics where
  image_count : Nat
  predict_time : Int
deriving DecidableEq, Repr

/- One per-prediction record, mirroring the `GeneratedImage` interface. -/
structure GeneratedImage where
  prediction_id : String
  status : Status
  urls : List String
  error : Option String := none
  data_removed : Option Bool := none
  note : Option String := none
  output : Option (List String) := none
  metrics : Option Metrics := none
deriving DecidableEq, Repr

/- State owned by the `useGeneratedImages` hook: the ordered collection of
records (most recent first) and the `firstImageArrivalTime` scalar. -/
structure ImagesState where
  images : List GeneratedImage
  firstImageArrivalTime : Option Nat
deriving DecidableEq, Repr

def emptyImages : ImagesState := ⟨[], none⟩

/- JavaScript's Array.prototype.findIndex, with `none` standing for -1. -/
def findIndex {α : Type} (p : α → Bool) : List α → Option Nat
  | [] => none
  | x :: xs => if p x then some 0 else (findIndex p xs).map (· + 1)

/- `updateImage` from useWebSocket.ts, as a pure step on the hook state.
`now` stands for the Date.now() read in the insert branch.  The source's
guard `!firstImageArrivalTime` is a JS falsiness test, true when the value
is null and also when it is the number 0. -/
def updateImage (newImage : GeneratedImage) (now : Nat) (s : ImagesState) : ImagesState :=
  match findIndex (fun img => img.prediction_id == newImage.prediction_id) s.images with
  | some existingIndex =>
    match s.images[existingIndex]? with
    | some existing =>
      if existing.status = Status.succeeded ∧ newImage.status = Status.succeeded then
        s
      else
        { s with images := s.images.set existingIndex newImage }
    | none => s
  | none =>
    { images := newImage :: s.images
      firstImageArrivalTime :=
        if newImage.status = Status.succeeded ∧
            (s.firstImageArrivalTime = none ∨ s.firstImageArrivalTime = some 0) then
          some now
        else
          s.firstImageArrivalTime }

/- `clearImages` from useWebSocket.ts: full reset of the collection and of
the arrival-time scalar. -/
def clearImages (_s : ImagesState) : ImagesState := ⟨[], none⟩

/- Folding a whole sequence of (event, Date.now()) pairs through
`updateImage`, in arrival order. -/
def applyAll (events : List (GeneratedImage × Nat)) (s : ImagesState) : ImagesState :=
  events.foldl (fun st e => updateImage e.1 e.2 st) s

def idsOf (s : ImagesState) : List String :=
  s.images.map (fun img => img.prediction_id)

/- `succeededCount` as computed both by useGeneratedImages and by
GenerationConsole: the number of records whose status is `succeeded`. -/
def succeededCount (images : List GeneratedImage) : Nat :=
  (images.filter (fun img => img.status == Status.succeeded)).length

/- A JSON value as produced by the host's JSON.parse.  The source's
`ws.onmessage` handler parses the raw frame text with JSON.parse inside a
try/catch and forwards the parsed value to the onMessage observer without
any further shape validation, so the inbound payload is modelled at the
JSON level.  Number literals are kept as their source text, since no claim
computes with them. -/
inductive Json where
  | null
  | bool (b : Bool)
  | num (lit : String)
  | str (s : String)
  | arr (elems : List Json)
  | obj (fields : List (String × Json))

def spaceChar : Char := Char.ofNat 32
def quoteChar : Char := Char.ofNat 34
def backslashChar : Char := Char.ofNat 92
def lbraceChar : Char := Char.ofNat 123
def rbraceChar : Char := Char.ofNat 125
def newlineChar : Char := Char.ofNat 10
def tabChar : Char := Char.ofNat 9
def crChar : Char := Char.ofNat 13

def isJsonWs (c : Char) : Bool :=
  c == spaceChar || c == newlineChar || c == tabChar || c == crChar

def skipWs : List Char → List Char
  | [] => []
  | c :: cs => if isJsonWs c then skipWs cs else c :: cs

def isHexDigit (c : Char) : Bool :=
  c.isDigit || ('a' ≤ c && c ≤ 'f') || ('A' ≤ c && c ≤ 'F')

def hexVal (c : Char) : Nat :=
  if c.isDigit then c.toNat - 48
  else if 'a' ≤ c then c.toNat - 87
  else c.toNat - 55

def unescapeChar (c : Char) : Option Char :=
  if c == quoteChar then some quoteChar
  else if c == backslashChar then some backslashChar
  else if c == '/' then some '/'
  else if c == 'b' then some (Char.ofNat 8)
  else if c == 'f' then some (Char.ofNat 12)
  else if c == 'n' then some newlineChar
  else if c == 'r' then some crChar
  else if c == 't' then some tabChar
  else none

/- Body of a JSON string literal, after the opening quote; returns the
decoded characters and the remaining input past the closing quote. -/
def parseStringBody : Nat → List Char → Option (List Char × List Char)
  | 0, _ => none
  | _ + 1, [] => none
  | fuel + 1, c :: cs =>
    if c == quoteChar then some ([], cs)
    else if c == backslashChar then
      match cs with
      | [] => none
      | e :: cs2 =>
        if e == 'u' then
          match cs2 with
          | h1 :: h2 :: h3 :: h4 :: cs3 =>
            if isHexDigit h1 && isHexDigit h2 && isHexDigit h3 && isHexDigit h4 then
              (parseStringBody fuel cs3).map fun r =>
                (Char.ofNat (((hexVal h1 * 16 + hexVal h2) * 16 + hexVal h3) * 16 + hexVal h4)
                  :: r.1, r.2)
            else none
          | _ => none
        else
          match unescapeChar e with
          | some d => (parseStringBody fuel cs2).map fun r => (d :: r.1, r.2)
          | none => none
    else (parseStringBody fuel cs).map fun r => (c :: r.1, r.2)

def takeDigits : List Char → List Char × List Char
  | [] => ([], [])
  | c :: cs =>
    if c.isDigit then
      let r := takeDigits cs
      (c :: r.1, r.2)
    else ([], c :: cs)

def parseFrac : List Char → Option (List Char × List Char)
  | [] => some ([], [])
  | c :: rest =>
    if c == '.' then
      let d := takeDigits rest
      if d.1.isEmpty then none else some ('.' :: d.1, d.2)
    else some ([], c :: rest)

def parseExp : List Char → Option (List Char × List Char)
  | [] => some ([], [])
  | c :: rest =>
    if c == 'e' || c == 'E' then
      match rest with
      | [] => none
      | s :: rest2 =>
        if s == '+' || s == '-' then
          let d := takeDigits rest2
          if d.1.isEmpty then none else some (c :: s :: d.1, d.2)
        else
          let d := takeDigits rest
          if d.1.isEmpty then none else some (c :: d.1, d.2)
    else some ([], c :: rest)

def parseNumber (cs : List Char) : Option (Json × List Char) :=
  let p : List Char × List Char :=
    match cs with
    | c :: rest => if c == '-' then ([c], rest) else ([], cs)
    | [] => ([], [])
  let d := takeDigits p.2
  if d.1.isEmpty then none
  else
    match parseFrac d.2 with
    | none => none
    | some f =>
      match parseExp f.2 with
      | none => none
      | some x => some (Json.num (String.mk (p.1 ++ d.1 ++ f.1 ++ x.1)), x.2)

mutual

def parseValue : Nat → List Char → Option (Json × List Char)
  | 0, _ => none
  | fuel + 1, cs =>
    match skipWs cs with
    | [] => none
    | c :: rest =>
      if c == quoteChar then
        (parseStringBody (rest.length + 1) rest).map fun r => (Json.str (String.mk r.1), r.2)
      else if c == lbraceChar then
        match skipWs rest with
        | [] => none
        | c2 :: rest2 =>
          if c2 == rbraceChar then some (Json.obj [], rest2)
          else (parseMembers fuel (c2 :: rest2)).map fun r => (Json.obj r.1, r.2)
      else if c == '[' then
        match skipWs rest with
        | [] => none
        | c2 :: rest2 =>
          if c2 == ']' then some (Json.arr [], rest2)
          else (parseElems fuel (c2 :: rest2)).map fun r => (Json.arr r.1, r.2)
      else if c == 't' then
        match rest with
        | 'r' :: 'u' :: 'e' :: rest2 => some (Json.bool true, rest2)
        | _ => none
      else if c == 'f' then
        match rest with
        | 'a' :: 'l' :: 's' :: 'e' :: rest2 => some (Json.bool false, rest2)
        | _ => none
      else if c == 'n' then
        match rest with
        | 'u' :: 'l' :: 'l' :: rest2 => some (Json.null, rest2)
        | _ => none
      else parseNumber (c :: rest)

def parseElems : Nat → List Char → Option (List Json × List Char)
  | 0, _ => none
  | fuel + 1, cs =>
    match parseValue fuel cs with
    | none => none
    | some (v, rest) =>
      match skipWs rest with
      | [] => none
      | c :: rest2 =>
        if c == ',' then
          (parseElems fuel rest2).map fun r => (v :: r.1, r.2)
        else if c == ']' then some ([v], rest2)
        else none

def parseMembers : Nat → List Char → Option (List (String × Json) × List Char)
  | 0, _ => none
  | fuel + 1, cs =>
    match skipWs cs with
    | [] => none
    | c :: rest =>
      if c == quoteChar then
        match parseStringBody (rest.length + 1) rest with
        | none => none
        | some (key, rest2) =>
          match skipWs rest2 with
          | [] => none
          | c2 :: rest3 =>
            if c2 == ':' then
              match parseValue fuel rest3 with
              | none => none
              | some (v, rest4) =>
                match skipWs rest4 with
                | [] => none
                | c3 :: rest5 =>
                  if c3 == ',' then
                    (parseMembers fuel rest5).map fun r => ((String.mk key, v) :: r.1, r.2)
                  else if c3 == rbraceChar then some ([(String.mk key, v)], rest5)
                  else none
            else none
      else none

end

/- The host's JSON.parse on a frame's text: `none` models the thrown
SyntaxError that the handler's catch block swallows. -/
def jsonParse (data : String) : Option Json :=
  match parseValue (data.length + 1) data.data with
  | some (v, rest) => if skipWs rest = [] then some v else none
  | none => none

/- One transport instance.  `id` distinguishes the successive WebSocket
objects created by the client; `jobId` is the job whose endpoint the
socket was opened for (also the value its handlers close over). -/
structure Socket where
  id : Nat
  jobId : String
deriving DecidableEq, Repr

def wsUrl (jobId : String) : String :=
  "ws://localhost:8000/api/v1/generate/" ++ jobId

/- One scheduled reconnect continuation: the timer id returned by
setTimeout, the delay passed to it, and the jobId the continuation
captured.  A timer stays live until it fires or until clearTimeout is
called with its id. -/
structure ReconnectTimer where
  id : Nat
  delay : Nat
  jobId : String
deriving DecidableEq, Repr

/- Externally visible actions of one handler or operation run: close()
calls made on a transport (with the code passed; `none` for the code-less
close() issued by a re-entrant connect), sockets created, backoff timers
scheduled or cancelled, and observer callbacks invoked. -/
inductive Effect where
  | closeCalled (sock : Socket) (code : Option Nat)
  | socketCreated (sock : Socket)
  | timerScheduled (delay : Nat) (jobId : String)
  | timerCancelled
  | observerMessage (v : Json)
  | observerConnect
  | observerDisconnect
  | observerError

/- The refs and state hooks owned by `useWebSocket` together with the host
timer table: `isConnected`, `error`, `wsRef`, `reconnectTimeoutRef` (the
last setTimeout id stored in the ref — the source never resets it, so it
can go stale after a clearTimeout or a firing) and `reconnectAttemptsRef`.
`pendingTimers` holds every scheduled backoff continuation not yet fired
and not yet cancelled, including timers orphaned when the ref is
overwritten.  `nextSocketId` and `nextTimerId` are model bookkeeping
giving each created WebSocket and each setTimeout a fresh identity. -/
structure WSState where
  isConnected : Bool := false
  error : Option String := none
  wsRef : Option Socket := none
  reconnectTimeoutRef : Option Nat := none
  pendingTimers : List ReconnectTimer := []
  reconnectAttempts : Nat := 0
  nextSocketId : Nat := 0
  nextTimerId : Nat := 0
deriving DecidableEq, Repr

def maxReconnectAttempts : Nat := 5

/- `connect(jobId)`: no-op when jobId is empty (JS falsiness of the string)
or the client is disabled; otherwise any existing transport first gets a
code-less close() and a fresh transport is created and stored in wsRef. -/
def connect (enabled : Bool) (jobId : String) (s : WSState) : WSState × List Effect :=
  if jobId = "" ∨ enabled = false then (s, [])
  else
    match s.wsRef with
    | some old =>
      ({ s with wsRef := some ⟨s.nextSocketId, jobId⟩, nextSocketId := s.nextSocketId + 1 },
        [Effect.closeCalled old none, Effect.socketCreated ⟨s.nextSocketId, jobId⟩])
    | none =>
      ({ s with wsRef := some ⟨s.nextSocketId, jobId⟩, nextSocketId := s.nextSocketId + 1 },
        [Effect.socketCreated ⟨s.nextSocketId, jobId⟩])

/- The `ws.onopen` handler: marks the channel connected, clears the error,
resets the attempt counter and notifies the observer. -/
def onopen (s : WSState) : WSState × List Effect :=
  ({ s with isConnected := true, error := none, reconnectAttempts := 0 },
    [Effect.observerConnect])

/- The `ws.onmessage` handler: JSON.parse the frame inside try/catch; on
success forward the parsed value to the onMessage observer, on a parse
failure swallow it (console log only) leaving all state untouched. -/
def onmessage (data : String) (s : WSState) : WSState × List Effect :=
  match jsonParse data with
  | some v => (s, [Effect.observerMessage v])
  | none => (s, [])

/- The `ws.onclose` handler installed by `connect`; `enabled` and `jobId`
are the values the closure captured and `code` is the CloseEvent's code.
When the close was not clean (code 1000), the attempt ceiling has not been
reached and the client is enabled, a reconnect for the captured jobId is
scheduled after min(1000 * 2 ^ attempts, 30000) ms.  The source assigns
the new setTimeout id to reconnectTimeoutRef without a clearTimeout, so a
previously scheduled timer is not cancelled by the overwrite: it stays in
`pendingTimers`, merely no longer tracked by the ref. -/
def onclose (enabled : Bool) (jobId : String) (code : Nat) (s : WSState) :
    WSState × List Effect :=
  if code ≠ 1000 ∧ s.reconnectAttempts < maxReconnectAttempts ∧ enabled = true then
    ({ s with
        isConnected := false
        wsRef := none
        reconnectTimeoutRef := some s.nextTimerId
        pendingTimers :=
          ⟨s.nextTimerId, min (1000 * 2 ^ s.reconnectAttempts) 30000, jobId⟩ :: s.pendingTimers
        nextTimerId := s.nextTimerId + 1 },
      [Effect.observerDisconnect,
        Effect.timerScheduled (min (1000 * 2 ^ s.reconnectAttempts) 30000) jobId])
  else
    ({ s with isConnected := false, wsRef := none }, [Effect.observerDisconnect])

/- The `ws.onerror` handler: records the error string and notifies the
observer; does not itself close anything. -/
def onerror (s : WSState) : WSState × List Effect :=
  ({ s with error := some "Connection error" }, [Effect.observerError])

/- The host's clearTimeout: the timer with the given id stops being
pending; clearing an id that already fired or was already cleared is a
no-op. -/
def clearTimeout (tid : Nat) (timers : List ReconnectTimer) : List ReconnectTimer :=
  timers.filter (fun t => t.id ≠ tid)

/- `disconnect()`: calls clearTimeout on the id held in
reconnectTimeoutRef (when the ref was ever assigned) — only that one timer
is cancelled, and the ref keeps the stale id, as in the source — then
gives an open transport a clean close with the normal-closure code 1000
and resets the connected flag and error state. -/
def disconnect (s : WSState) : WSState × List Effect :=
  let cleared : List ReconnectTimer :=
    match s.reconnectTimeoutRef with
    | some tid => clearTimeout tid s.pendingTimers
    | none => s.pendingTimers
  let cancelEffects : List Effect :=
    match s.reconnectTimeoutRef with
    | some _ => [Effect.timerCancelled]
    | none => []
  match s.wsRef with
  | some sock =>
    ({ s with
        pendingTimers := cleared
        wsRef := none
        isConnected := false
        error := none },
      cancelEffects ++ [Effect.closeCalled sock (some 1000)])
  | none =>
    ({ s with
        pendingTimers := cleared
        isConnected := false
        error := none },
      cancelEffects)

/- Elapse of one scheduled backoff deadline.  Any still-pending timer may
fire — including one orphaned by a later onclose overwriting the ref —
since the host runs every uncancelled setTimeout continuation.  Firing
consumes the timer, increments the attempt counter and re-enters connect
for the captured jobId; a timer already fired or cancelled does nothing. -/
def timerFire (enabled : Bool) (t : ReconnectTimer) (s : WSState) : WSState × List Effect :=
  if t ∈ s.pendingTimers then
    connect enabled t.jobId
      { s with
          pendingTimers := s.pendingTimers.erase t
          reconnectAttempts := s.reconnectAttempts + 1 }
  else (s, [])

/- State owned by GenerationConsole that the auto-disconnect effect reads:
the expected image count of the last submitted job and the WebSocket
client state. -/
structure ConsoleState where
  expectedImageCount : Nat
  ws : WSState
deriving DecidableEq, Repr

/- The GenerationConsole effect that runs whenever `succeededCount` or
`expectedImageCount` changes: once a positive expected count has been
reached by the succeeded records, disconnect the channel and zero the
expected count to prevent further disconnections. -/
def autoDisconnect (images : List GeneratedImage) (c : ConsoleState) :
    ConsoleState × List Effect :=
  if 0 < c.expectedImageCount ∧ c.expectedImageCount ≤ succeededCount images then
    let r := disconnect c.ws
    ({ expectedImageCount := 0, ws := r.1 }, r.2)
  else (c, [])

theorem findIndex_eq_none_iff {α : Type} {p : α → Bool} {l : List α} :
    findIndex p l = none ↔ ∀ x ∈ l, p x = false := by
  induction l with
  | nil => simp [findIndex]
  | cons x xs ih =>
    cases hx : p x with
    | true => simp [findIndex, hx]
    | false => simp [findIndex, hx, Option.map_eq_none', ih]

theorem findIndex_eq_some {α : Type} {p : α → Bool} {l : List α} {i : Nat}
    (h : findIndex p l = some i) : ∃ a, l[i]? = some a ∧ p a = true := by
  induction l generalizing i with
  | nil => simp [findIndex] at h
  | cons x xs ih =>
    cases hx : p x with
    | true =>
      rw [findIndex, if_pos hx] at h
      obtain rfl : (0 : Nat) = i := Option.some.inj h
      exact ⟨x, List.getElem?_cons_zero, hx⟩
    | false =>
      rw [findIndex, if_neg (by simp [hx])] at h
      obtain ⟨j, hj, rfl⟩ := Option.map_eq_some'.mp h
      obtain ⟨a, ha, hpa⟩ := ih hj
      exact ⟨a, by simpa using ha, hpa⟩

theorem findIndex_lt_length {α : Type} {p : α → Bool} {l : List α} {i : Nat}
    (h : findIndex p l = some i) : i < l.length := by
  obtain ⟨a, ha, -⟩ := findIndex_eq_some h
  exact (List.getElem?_eq_some_iff.mp ha).1

theorem findIndex_set {α : Type} {p : α → Bool} {l : List α} {i : Nat} {a : α}
    (h : findIndex p l = some i) (ha : p a = true) :
    findIndex p (l.set i a) = some i := by
  induction l generalizing i with
  | nil => simp [findIndex] at h
  | cons x xs ih =>
    cases hx : p x with
    | true =>
      rw [findIndex, if_pos hx] at h
      obtain rfl : (0 : Nat) = i := Option.some.inj h
      simp [findIndex, ha]
    | false =>
      rw [findIndex, if_neg (by simp [hx])] at h
      obtain ⟨j, hj, rfl⟩ := Option.map_eq_some'.mp h
      simp [findIndex, hx, ih hj]

theorem findIndex_cons_self {α : Type} {p : α → Bool} {x : α} {l : List α}
    (h : p x = true) : findIndex p (x :: l) = some 0 := by
  simp [findIndex, h]

theorem set_of_getElem?_eq {α : Type} {l : List α} {i : Nat} {a : α}
    (h : l[i]? = some a) : l.set i a = l := by
  induction l generalizing i with
  | nil => simp at h
  | cons x xs ih =>
    cases i with
    | zero => simp_all
    | succ j => simp at h; simp [ih h]

theorem updateImage_of_absent (e : GeneratedImage) (now : Nat) (s : ImagesState)
    (h : findIndex (fun img => img.prediction_id == e.prediction_id) s.images = none) :
    updateImage e now s =
      { images := e :: s.images
        firstImageArrivalTime :=
          if e.status = Status.succeeded ∧
              (s.firstImageArrivalTime = none ∨ s.firstImageArrivalTime = some 0) then
            some now
          else s.firstImageArrivalTime } := by
  unfold updateImage
  rw [h]

theorem updateImage_of_present_both_succeeded (e : GeneratedImage) (now : Nat)
    (s : ImagesState) (i : Nat) (r : GeneratedImage)
    (hfind : findIndex (fun img => img.prediction_id == e.prediction_id) s.images = some i)
    (hget : s.images[i]? = some r)
    (hr : r.status = Status.succeeded) (he : e.status = Status.succeeded) :
    updateImage e now s = s := by
  unfold updateImage
  rw [hfind]
  simp only [hget]
  rw [if_pos ⟨hr, he⟩]

theorem updateImage_of_present_replace (e : GeneratedImage) (now : Nat)
    (s : ImagesState) (i : Nat) (r : GeneratedImage)
    (hfind : findIndex (fun img => img.prediction_id == e.prediction_id) s.images = some i)
    (hget : s.images[i]? = some r)
    (hcond : ¬(r.status = Status.succeeded ∧ e.status = Status.succeeded)) :
    updateImage e now s = { s with images := s.images.set i e } := by
  unfold updateImage
  rw [hfind]
  simp only [hget]
  rw [if_neg hcond]

theorem updateImage_of_oob (e : GeneratedImage) (now : Nat)
    (s : ImagesState) (i : Nat)
    (hfind : findIndex (fun img => img.prediction_id == e.prediction_id) s.images = some i)
    (hget : s.images[i]? = none) :
    updateImage e now s = s := by
  unfold updateImage
  rw [hfind]
  simp only [hget]

theorem id_eq_of_findIndex (e : GeneratedImage) (s : ImagesState) (i : Nat)
    (r : GeneratedImage)
    (hfind : findIndex (fun img => img.prediction_id == e.prediction_id) s.images = some i)
    (hget : s.images[i]? = some r) :
    r.prediction_id = e.prediction_id := by
  obtain ⟨a, ha, hpa⟩ := findIndex_eq_some hfind
  rw [hget] at ha
  obtain rfl : a = r := (Option.some.inj ha).symm
  exact beq_iff_eq.mp hpa

theorem not_mem_idsOf_of_findIndex_none (e : GeneratedImage) (s : ImagesState)
    (h : findIndex (fun img => img.prediction_id == e.prediction_id) s.images = none) :
    e.prediction_id ∉ idsOf s := by
  intro hmem
  obtain ⟨x, hx, hxe⟩ := List.mem_map.mp hmem
  have := findIndex_eq_none_iff.mp h x hx
  rw [hxe] at this
  simp at this

theorem findIndex_none_of_not_mem_idsOf (e : GeneratedImage) (s : ImagesState)
    (h : e.prediction_id ∉ idsOf s) :
    findIndex (fun img => img.prediction_id == e.prediction_id) s.images = none := by
  refine findIndex_eq_none_iff.mpr fun x hx => ?_
  refine beq_eq_false_iff_ne.mpr fun hxe => ?_
  exact h (List.mem_map.mpr ⟨x, hx, hxe⟩)

/- The fold step either leaves the id list untouched (replace-in-place or
no-op) or conses the incoming, previously unseen id at the head. -/
theorem idsOf_updateImage (e : GeneratedImage) (now : Nat) (s : ImagesState) :
    idsOf (updateImage e now s) = idsOf s
  ∨ (idsOf (updateImage e now s) = e.prediction_id :: idsOf s
      ∧ e.prediction_id ∉ idsOf s) := by
  cases hfind : findIndex (fun img => img.prediction_id == e.prediction_id) s.images with
  | none =>
    right
    rw [updateImage_of_absent e now s hfind]
    exact ⟨rfl, not_mem_idsOf_of_findIndex_none e s hfind⟩
  | some i =>
    left
    cases hget : s.images[i]? with
    | none => rw [updateImage_of_oob e now s i hfind hget]
    | some r =>
      by_cases hcond : r.status = Status.succeeded ∧ e.status = Status.succeeded
      · rw [updateImage_of_present_both_succeeded e now s i r hfind hget hcond.1 hcond.2]
      · rw [updateImage_of_present_replace e now s i r hfind hget hcond]
        show (s.images.set i e).map (fun img => img.prediction_id) = idsOf s
        rw [List.map_set]
        apply set_of_getElem?_eq
        rw [List.getElem?_map, hget, Option.map_some']
        rw [id_eq_of_findIndex e s i r hfind hget]

theorem idsOf_nodup_updateImage (e : GeneratedImage) (now : Nat) (s : ImagesState)
    (h : (idsOf s).Nodup) : (idsOf (updateImage e now s)).Nodup := by
  rcases idsOf_updateImage e now s with heq | ⟨heq, hmem⟩
  · rw [heq]; exact h
  · rw [heq]; exact List.nodup_cons.mpr ⟨hmem, h⟩

theorem applyAll_nil (s : ImagesState) : applyAll [] s = s := rfl

theorem applyAll_cons (ev : GeneratedImage × Nat) (evs : List (GeneratedImage × Nat))
    (s : ImagesState) : applyAll (ev :: evs) s = applyAll evs (updateImage ev.1 ev.2 s) := rfl

theorem idsOf_nodup_applyAll (events : List (GeneratedImage × Nat)) (s : ImagesState)
    (h : (idsOf s).Nodup) : (idsOf (applyAll events s)).Nodup := by
  induction events generalizing s with
  | nil => exact h
  | cons ev evs ih =>
    rw [applyAll_cons]
    exact ih _ (idsOf_nodup_updateImage ev.1 ev.2 s h)

/- When every incoming id is fresh (pairwise distinct and absent from the
current collection), the fold just prepends the events in reverse order. -/
theorem applyAll_fresh (events : List (GeneratedImage × Nat)) (s : ImagesState)
    (hnd : (events.map (fun p => p.1.prediction_id)).Nodup)
    (hdis : ∀ p ∈ events, p.1.prediction_id ∉ idsOf s) :
    (applyAll events s).images = (events.map Prod.fst).reverse ++ s.images := by
  induction events generalizing s with
  | nil => simp [applyAll_nil]
  | cons ev evs ih =>
    rw [applyAll_cons]
    have hfresh : ev.1.prediction_id ∉ idsOf s := hdis ev (List.mem_cons_self ev evs)
    have hfind := findIndex_none_of_not_mem_idsOf ev.1 s hfresh
    have hima : (updateImage ev.1 ev.2 s).images = ev.1 :: s.images := by
      rw [updateImage_of_absent ev.1 ev.2 s hfind]
    have hids : idsOf (updateImage ev.1 ev.2 s) = ev.1.prediction_id :: idsOf s := by
      unfold idsOf
      rw [hima, List.map_cons]
    rw [List.map_cons] at hnd
    have hnd' := List.nodup_cons.mp hnd
    have hdis' : ∀ p ∈ evs, p.1.prediction_id ∉ idsOf (updateImage ev.1 ev.2 s) := by
      intro p hp
      rw [hids]
      intro hmem
      rcases List.mem_cons.mp hmem with heq | hmem'
      · exact hnd'.1 (heq ▸ List.mem_map.mpr ⟨p, hp, rfl⟩)
      · exact hdis p (List.mem_cons_of_mem ev hp) hmem'
    rw [ih (updateImage ev.1 ev.2 s) hnd'.2 hdis', hima]
    simp [List.append_assoc]

theorem disconnect_closes_cleanly (s : WSState) (sock : Socket)
    (h : s.wsRef = some sock) :
    Effect.closeCalled sock (some 1000) ∈ (disconnect s).2 := by
  obtain ⟨c, err, ws, ref, pend, ra, ns, nt⟩ := s
  obtain rfl : ws = some sock := h
  cases ref <;> simp [disconnect]

example : jsonParse "nope" = none := rfl

example :
    jsonParse "\x7b\"type\": \"pong\"\x7d"
      = some (Json.obj [("type", Json.str "pong")]) := rfl

/-- C1 (counterexample): the claimed terminal freeze fails on the code.  In
a collection whose record for id "a" has status `succeeded`, a later event
for "a" with status `processing` replaces the record instead of leaving it
unchanged: the guard in updateImage only fires when the incoming status is
also `succeeded`. -/
theorem c1_terminal_freeze_counterexample :
    (updateImage { prediction_id := "a", status := Status.processing, urls := [] } 9
        ⟨[{ prediction_id := "a", status := Status.succeeded, urls := ["u1"] }], some 3⟩).images
      = [{ prediction_id := "a", status := Status.processing, urls := [] }]
  ∧ (updateImage { prediction_id := "a", status := Status.processing, urls := [] } 9
        ⟨[{ prediction_id := "a", status := Status.succeeded, urls := ["u1"] }], some 3⟩).images
      ≠ [{ prediction_id := "a", status := Status.succeeded, urls := ["u1"] }] := by
  decide

/-- C1 (amended): once a record's status is `succeeded`, a further apply for
the same id is a no-op only when the incoming status is also `succeeded`;
an incoming event with any other status replaces the record in place (the
arrival-time scalar is untouched either way). -/
theorem c1_freeze_only_against_succeeded (s : ImagesState) (e : GeneratedImage)
    (now : Nat) (i : Nat) (r : GeneratedImage)
    (hfind : findIndex (fun img => img.prediction_id == e.prediction_id) s.images = some i)
    (hget : s.images[i]? = some r)
    (hr : r.status = Status.succeeded) :
    (e.status = Status.succeeded → updateImage e now s = s)
  ∧ (e.status ≠ Status.succeeded →
      (updateImage e now s).images = s.images.set i e
      ∧ (updateImage e now s).firstImageArrivalTime = s.firstImageArrivalTime) := by
  constructor
  · intro he
    exact updateImage_of_present_both_succeeded e now s i r hfind hget hr he
  · intro he
    rw [updateImage_of_present_replace e now s i r hfind hget (fun h => he h.2)]
    exact ⟨rfl, rfl⟩

/-- C1 (witness): the amended theorem at the concrete collection of the
counterexample: the stale `processing` event replaces the record at its
index. -/
theorem c1_freeze_only_against_succeeded_witness :
    (updateImage { prediction_id := "a", status := Status.processing, urls := [] } 9
        ⟨[{ prediction_id := "a", status := Status.succeeded, urls := ["u1"] }], some 3⟩).images
      = [{ prediction_id := "a", status := Status.succeeded, urls := ["u1"] }].set 0
          { prediction_id := "a", status := Status.processing, urls := [] } :=
  ((c1_freeze_only_against_succeeded
      ⟨[{ prediction_id := "a", status := Status.succeeded, urls := ["u1"] }], some 3⟩
      { prediction_id := "a", status := Status.processing, urls := [] } 9 0
      { prediction_id := "a", status := Status.succeeded, urls := ["u1"] }
      (by decide) (by decide) rfl).2 (by decide)).1

/-- C2 (counterexample): `firstImageArrivalTime` is not latched when an
already-present record transitions to `succeeded` via an update: after
`starting` then `succeeded` for one id, the sole record has status
`succeeded` but the scalar is still unset, because the latch lives only in
the insert branch of updateImage. -/
theorem c2_first_success_latch_counterexample :
    (applyAll
        [({ prediction_id := "a", status := Status.starting, urls := [] }, 3),
          ({ prediction_id := "a", status := Status.succeeded, urls := [], output := some ["https://x/1.png"] }, 7)]
        emptyImages).images.map (fun img => img.status) = [Status.succeeded]
  ∧ (applyAll
        [({ prediction_id := "a", status := Status.starting, urls := [] }, 3),
          ({ prediction_id := "a", status := Status.succeeded, urls := [], output := some ["https://x/1.png"] }, 7)]
        emptyImages).firstImageArrivalTime = none := by
  decide

/-- C2 (amended): `firstImageArrivalTime` is latched only when a record with
an unseen id is inserted already carrying status `succeeded` while the
scalar is unset; an apply that finds the id already present never changes
the scalar; and once set to a nonzero timestamp it is never changed by a
further apply (only reset clears it). -/
theorem c2_first_success_latch (s : ImagesState) (e : GeneratedImage) (now : Nat) :
    (findIndex (fun img => img.prediction_id == e.prediction_id) s.images = none →
      e.status = Status.succeeded → s.firstImageArrivalTime = none →
      (updateImage e now s).firstImageArrivalTime = some now)
  ∧ (∀ i, findIndex (fun img => img.prediction_id == e.prediction_id) s.images = some i →
      (updateImage e now s).firstImageArrivalTime = s.firstImageArrivalTime)
  ∧ (∀ t, s.firstImageArrivalTime = some t → t ≠ 0 →
      (updateImage e now s).firstImageArrivalTime = some t) := by
  have hsome : ∀ i, findIndex (fun img => img.prediction_id == e.prediction_id) s.images = some i →
      (updateImage e now s).firstImageArrivalTime = s.firstImageArrivalTime := by
    intro i hfind
    cases hget : s.images[i]? with
    | none => rw [updateImage_of_oob e now s i hfind hget]
    | some r =>
      by_cases hcond : r.status = Status.succeeded ∧ e.status = Status.succeeded
      · rw [updateImage_of_present_both_succeeded e now s i r hfind hget hcond.1 hcond.2]
      · rw [updateImage_of_present_replace e now s i r hfind hget hcond]
  refine ⟨?_, hsome, ?_⟩
  · intro hfind he hnone
    rw [updateImage_of_absent e now s hfind]
    simp [he, hnone]
  · intro t ht ht0
    cases hfind : findIndex (fun img => img.prediction_id == e.prediction_id) s.images with
    | none =>
      rw [updateImage_of_absent e now s hfind]
      have hno : ¬(e.status = Status.succeeded ∧
          (s.firstImageArrivalTime = none ∨ s.firstImageArrivalTime = some 0)) := by
        rintro ⟨-, h | h⟩ <;> rw [ht] at h
        · exact Option.noConfusion h
        · exact ht0 (Option.some.inj h)
      rw [if_neg hno]
      exact ht
    | some i => rw [hsome i hfind, ht]

/-- C2 (witness): the amended theorem at concrete inputs: a fresh record
arriving as `succeeded` on an unset scalar latches it to the current time. -/
theorem c2_first_success_latch_witness :
    (updateImage { prediction_id := "a", status := Status.succeeded, urls := [] } 7
        emptyImages).firstImageArrivalTime = some 7 :=
  (c2_first_success_latch emptyImages
      { prediction_id := "a", status := Status.succeeded, urls := [] } 7).1 rfl rfl rfl

/-- C5: for a collection whose record at the index found for the event's id
is already `succeeded`, applying another `succeeded` event for that id —
whatever payload it carries — returns the state unchanged; and applying the
same `succeeded` event twice equals applying it once. -/
theorem c5_duplicate_success_idempotent (s : ImagesState) (e : GeneratedImage)
    (now now2 : Nat) (hsucc : e.status = Status.succeeded) :
    (∀ i r, findIndex (fun img => img.prediction_id == e.prediction_id) s.images = some i →
      s.images[i]? = some r → r.status = Status.succeeded →
      updateImage e now s = s)
  ∧ updateImage e now2 (updateImage e now s) = updateImage e now s := by
  constructor
  · intro i r hfind hget hr
    exact updateImage_of_present_both_succeeded e now s i r hfind hget hr hsucc
  · cases hfind : findIndex (fun img => img.prediction_id == e.prediction_id) s.images with
    | none =>
      rw [updateImage_of_absent e now s hfind]
      exact updateImage_of_present_both_succeeded e now2 _ 0 e
        (findIndex_cons_self (by simp)) List.getElem?_cons_zero hsucc hsucc
    | some i =>
      cases hget : s.images[i]? with
      | none =>
        rw [updateImage_of_oob e now s i hfind hget]
        exact updateImage_of_oob e now2 s i hfind hget
      | some r =>
        by_cases hr : r.status = Status.succeeded
        · rw [updateImage_of_present_both_succeeded e now s i r hfind hget hr hsucc]
          exact updateImage_of_present_both_succeeded e now2 s i r hfind hget hr hsucc
        · have hcond : ¬(r.status = Status.succeeded ∧ e.status = Status.succeeded) :=
            fun h => hr h.1
          rw [updateImage_of_present_replace e now s i r hfind hget hcond]
          exact updateImage_of_present_both_succeeded e now2 _ i e
            (findIndex_set hfind (by simp)) (List.getElem?_set_eq_of_lt e (findIndex_lt_length hfind))
            hsucc hsucc

/-- C5 (witness): applying the same `succeeded` event twice from empty
equals applying it once, and a duplicated `succeeded` event carrying a
bogus payload leaves a terminal record untouched. -/
theorem c5_duplicate_success_idempotent_witness :
    updateImage { prediction_id := "a", status := Status.succeeded, urls := ["u1"] } 4
        (updateImage { prediction_id := "a", status := Status.succeeded, urls := ["u1"] } 2
          emptyImages)
      = updateImage { prediction_id := "a", status := Status.succeeded, urls := ["u1"] } 2
          emptyImages
  ∧ updateImage { prediction_id := "a", status := Status.succeeded, urls := ["bogus"] } 9
        ⟨[{ prediction_id := "a", status := Status.succeeded, urls := ["u1"] }], some 2⟩
      = ⟨[{ prediction_id := "a", status := Status.succeeded, urls := ["u1"] }], some 2⟩ :=
  ⟨(c5_duplicate_success_idempotent emptyImages
      { prediction_id := "a", status := Status.succeeded, urls := ["u1"] } 2 4 rfl).2,
    (c5_duplicate_success_idempotent
      ⟨[{ prediction_id := "a", status := Status.succeeded, urls := ["u1"] }], some 2⟩
      { prediction_id := "a", status := Status.succeeded, urls := ["bogus"] } 9 9 rfl).1 0
      { prediction_id := "a", status := Status.succeeded, urls := ["u1"] }
      (by decide) (by decide) rfl⟩

/-- C9: starting from the empty collection the fold never yields two records
with the same prediction id; for a distinct-id event sequence the final
collection is exactly the events most-recent-first (so each id appears
exactly once); a fresh id is inserted at the head; and an apply that finds
the id at index i either leaves the collection unchanged or replaces in
place at i. -/
theorem c9_id_uniqueness (events : List (GeneratedImage × Nat)) :
    (idsOf (applyAll events emptyImages)).Nodup
  ∧ ((events.map (fun p => p.1.prediction_id)).Nodup →
      (applyAll events emptyImages).images = (events.map Prod.fst).reverse)
  ∧ (∀ (e : GeneratedImage) (now : Nat) (s : ImagesState),
      findIndex (fun img => img.prediction_id == e.prediction_id) s.images = none →
      (updateImage e now s).images = e :: s.images)
  ∧ (∀ (e : GeneratedImage) (now : Nat) (s : ImagesState) (i : Nat),
      findIndex (fun img => img.prediction_id == e.prediction_id) s.images = some i →
      (updateImage e now s).images = s.images ∨
        (updateImage e now s).images = s.images.set i e) := by
  refine ⟨idsOf_nodup_applyAll events emptyImages (by simp [idsOf, emptyImages]), ?_, ?_, ?_⟩
  · intro hnd
    have h := applyAll_fresh events emptyImages hnd
      (by intro p hp; simp [idsOf, emptyImages])
    simpa [emptyImages] using h
  · intro e now s hfind
    rw [updateImage_of_absent e now s hfind]
  · intro e now s i hfind
    cases hget : s.images[i]? with
    | none =>
      left
      rw [updateImage_of_oob e now s i hfind hget]
    | some r =>
      by_cases hcond : r.status = Status.succeeded ∧ e.status = Status.succeeded
      · left
        rw [updateImage_of_present_both_succeeded e now s i r hfind hget hcond.1 hcond.2]
      · right
        rw [updateImage_of_present_replace e now s i r hfind hget hcond]

/-- C9 (witness): two distinct-id `starting` events from empty give a
duplicate-free id list and the two records most-recent-first. -/
theorem c9_id_uniqueness_witness :
    (idsOf (applyAll
        [({ prediction_id := "a", status := Status.starting, urls := [] }, 1),
          ({ prediction_id := "b", status := Status.starting, urls := [] }, 2)]
        emptyImages)).Nodup
  ∧ (applyAll
        [({ prediction_id := "a", status := Status.starting, urls := [] }, 1),
          ({ prediction_id := "b", status := Status.starting, urls := [] }, 2)]
        emptyImages).images
      = [{ prediction_id := "b", status := Status.starting, urls := [] },
          { prediction_id := "a", status := Status.starting, urls := [] }] :=
  ⟨(c9_id_uniqueness
      [({ prediction_id := "a", status := Status.starting, urls := [] }, 1),
        ({ prediction_id := "b", status := Status.starting, urls := [] }, 2)]).1,
    by
      have h := (c9_id_uniqueness
        [({ prediction_id := "a", status := Status.starting, urls := [] }, 1),
          ({ prediction_id := "b", status := Status.starting, urls := [] }, 2)]).2.1 (by decide)
      simpa using h⟩

/-- C3: after an unclean close (code other than 1000) with the client
enabled, the reconnect at attempt counter k < 5 is scheduled after
min(1000 * 2 ^ k, 30000) ms — so the achievable consecutive delays are
1000, 2000, 4000, 8000, 16000 — no reconnect is scheduled once 5 attempts
have been made, and an elapsing backoff timer increments the attempt
counter by one. -/
theorem c3_backoff_schedule (enabled : Bool) (jobId : String) (code : Nat)
    (s : WSState) (hcode : code ≠ 1000) (henabled : enabled = true) :
    (s.reconnectAttempts < 5 →
      (onclose enabled jobId code s).1.pendingTimers
          = ⟨s.nextTimerId, min (1000 * 2 ^ s.reconnectAttempts) 30000, jobId⟩
              :: s.pendingTimers
        ∧ (onclose enabled jobId code s).1.reconnectTimeoutRef = some s.nextTimerId
        ∧ Effect.timerScheduled (min (1000 * 2 ^ s.reconnectAttempts) 30000) jobId
            ∈ (onclose enabled jobId code s).2)
  ∧ (5 ≤ s.reconnectAttempts →
      (onclose enabled jobId code s).1.pendingTimers = s.pendingTimers
        ∧ (onclose enabled jobId code s).1.reconnectTimeoutRef = s.reconnectTimeoutRef
        ∧ ∀ d j, Effect.timerScheduled d j ∉ (onclose enabled jobId code s).2)
  ∧ (List.range 5).map (fun k => min (1000 * 2 ^ k) 30000)
      = [1000, 2000, 4000, 8000, 16000]
  ∧ (∀ t, t ∈ s.pendingTimers →
      (timerFire enabled t s).1.reconnectAttempts = s.reconnectAttempts + 1) := by
  refine ⟨?_, ?_, by decide, ?_⟩
  · intro h5
    rw [onclose, if_pos ⟨hcode, h5, henabled⟩]
    exact ⟨rfl, rfl, by simp⟩
  · intro h5
    have hno : ¬(code ≠ 1000 ∧ s.reconnectAttempts < maxReconnectAttempts ∧ enabled = true) := by
      rintro ⟨-, hlt, -⟩
      exact absurd hlt (by simpa [maxReconnectAttempts] using Nat.not_lt.mpr h5)
    rw [onclose, if_neg hno]
    refine ⟨rfl, rfl, ?_⟩
    intro d j hmem
    simp at hmem
  · intro t ht
    rw [timerFire, if_pos ht]
    obtain ⟨c, err, ws, ref, pend, ra, ns, nt⟩ := s
    show (connect enabled t.jobId ⟨c, err, ws, ref, pend.erase t, ra + 1, ns, nt⟩).1.reconnectAttempts
      = ra + 1
    unfold connect
    split
    · rfl
    · cases ws <;> rfl

/-- C3 (witness): at attempt counter 2, an unclean close (code 1006)
schedules a backoff timer with delay min(1000 * 2 ^ 2, 30000) = 4000 ms. -/
theorem c3_backoff_schedule_witness :
    (0 : Nat) < 5
  ∧ (onclose true "j" 1006 ⟨false, none, none, none, [], 2, 0, 5⟩).1.pendingTimers
      = [⟨5, 4000, "j"⟩] :=
  ⟨by decide,
    by exact ((c3_backoff_schedule true "j" 1006 ⟨false, none, none, none, [], 2, 0, 5⟩
      (by decide) rfl).1 (by decide)).1⟩

/-- C4: evaluation at the failing input.  With an open transport for job
"job-a" (attempt counter 0, enabled), connect("job-b") issues a code-less
close() on the old socket — not a close carrying the normal-closure code
1000 — so the old socket's onclose handler, observing the later close
event for the old socket (which carries 1005, no status having been sent),
schedules a 1000 ms reconnect for the old job and nulls the shared wsRef,
clobbering the new transport reference. -/
theorem c4_reentrant_connect_unclean_close :
    (connect true "job-b" ⟨true, none, some ⟨0, "job-a"⟩, none, [], 0, 1, 0⟩).2
        = [Effect.closeCalled ⟨0, "job-a"⟩ none, Effect.socketCreated ⟨1, "job-b"⟩]
  ∧ Effect.closeCalled ⟨0, "job-a"⟩ (some 1000)
      ∉ (connect true "job-b" ⟨true, none, some ⟨0, "job-a"⟩, none, [], 0, 1, 0⟩).2
  ∧ (connect true "job-b" ⟨true, none, some ⟨0, "job-a"⟩, none, [], 0, 1, 0⟩).1.wsRef
      = some ⟨1, "job-b"⟩
  ∧ (onclose true "job-a" 1005
        (connect true "job-b" ⟨true, none, some ⟨0, "job-a"⟩, none, [], 0, 1, 0⟩).1).1.pendingTimers
      = [⟨0, 1000, "job-a"⟩]
  ∧ (onclose true "job-a" 1005
        (connect true "job-b" ⟨true, none, some ⟨0, "job-a"⟩, none, [], 0, 1, 0⟩).1).1.reconnectTimeoutRef
      = some 0
  ∧ (onclose true "job-a" 1005
        (connect true "job-b" ⟨true, none, some ⟨0, "job-a"⟩, none, [], 0, 1, 0⟩).1).1.wsRef
      = none := by
  refine ⟨rfl, ?_, rfl, rfl, rfl, rfl⟩
  intro hmem
  simp [connect] at hmem

/-- C6: a close event carrying the normal-closure code 1000 schedules no
reconnect, regardless of the attempt counter and the enabled flag: the
handler only clears the connected flag and the transport ref, and its only
effect is the observer notification. -/
theorem c6_clean_close_no_reconnect (enabled : Bool) (jobId : String) (s : WSState) :
    (onclose enabled jobId 1000 s).1 = { s with isConnected := false, wsRef := none }
  ∧ (onclose enabled jobId 1000 s).2 = [Effect.observerDisconnect] := by
  have hno : ¬((1000 : Nat) ≠ 1000 ∧ s.reconnectAttempts < maxReconnectAttempts ∧
      enabled = true) := by
    rintro ⟨h, -, -⟩
    exact h rfl
  rw [onclose, if_neg hno]
  exact ⟨rfl, rfl⟩

/- The client state reached by this event trace from a fresh client:
connect("job-a"); unclean close (code 1006) of the "job-a" socket, which
schedules backoff timer 0; connect("job-b") during the backoff window (the
job-submission flow calls connect unconditionally on success); unclean
close (code 1006) of the "job-b" socket, which schedules backoff timer 1
and overwrites reconnectTimeoutRef without a clearTimeout, orphaning
timer 0. -/
def wsOrphanedTimerState : WSState :=
  (onclose true "job-b" 1006
    (connect true "job-b"
      (onclose true "job-a" 1006
        (connect true "job-a" ⟨false, none, none, none, [], 0, 0, 0⟩).1).1).1).1

/-- C7: evaluation at the failing input.  In the trace state both timers 1
and 0 are live with the ref tracking only timer 1; disconnect() cancels
only the ref-tracked timer 1, leaving the orphaned timer 0 pending (so it
does not cancel every pending backoff timer), and when timer 0's original
deadline later elapses it still fires: the attempt counter is incremented
and a new transport to "job-a" is created — a reconnect after the
deliberate disconnect.  The parts of the claim the code does implement
(connected flag and error cleared, the tracked timer cancelled) hold at
the same input. -/
theorem c7_disconnect_orphaned_timer_fires :
    wsOrphanedTimerState.pendingTimers = [⟨1, 1000, "job-b"⟩, ⟨0, 1000, "job-a"⟩]
  ∧ wsOrphanedTimerState.reconnectTimeoutRef = some 1
  ∧ (disconnect wsOrphanedTimerState).1.pendingTimers = [⟨0, 1000, "job-a"⟩]
  ∧ (disconnect wsOrphanedTimerState).1.isConnected = false
  ∧ (disconnect wsOrphanedTimerState).1.error = none
  ∧ Effect.timerCancelled ∈ (disconnect wsOrphanedTimerState).2
  ∧ (timerFire true ⟨0, 1000, "job-a"⟩ (disconnect wsOrphanedTimerState).1).1.reconnectAttempts
      = 1
  ∧ (timerFire true ⟨0, 1000, "job-a"⟩ (disconnect wsOrphanedTimerState).1).1.wsRef
      = some ⟨2, "job-a"⟩
  ∧ (timerFire true ⟨0, 1000, "job-a"⟩ (disconnect wsOrphanedTimerState).1).2
      = [Effect.socketCreated ⟨2, "job-a"⟩] := by
  refine ⟨rfl, rfl, rfl, rfl, rfl, ?_, rfl, rfl, rfl⟩
  show Effect.timerCancelled ∈ [Effect.timerCancelled]
  simp

/-- C8: an inbound frame that JSON.parse rejects is swallowed by the
handler's catch: the whole client state (connected flag, error string,
transport ref, timers) is unchanged and no observer — in particular not
onMessage — is invoked. -/
theorem c8_decode_failure_swallowed (s : WSState) (data : String)
    (h : jsonParse data = none) :
    onmessage data s = (s, []) := by
  unfold onmessage
  rw [h]

/-- C8 (witness): the frame "not json" fails to parse and is swallowed with
the connection state untouched. -/
theorem c8_decode_failure_swallowed_witness :
    jsonParse "not json" = none
  ∧ onmessage "not json" ⟨true, none, some ⟨0, "j"⟩, none, [], 0, 1, 0⟩
      = (⟨true, none, some ⟨0, "j"⟩, none, [], 0, 1, 0⟩, []) :=
  ⟨rfl, c8_decode_failure_swallowed ⟨true, none, some ⟨0, "j"⟩, none, [], 0, 1, 0⟩ "not json" rfl⟩

/-- C10: once the expected image count is positive and the succeeded records
reach or exceed it, the console effect disconnects the channel — a clean
close with code 1000 when a transport is open — and zeroes the expected
count, after which the effect never triggers again, whatever the collection
later holds. -/
theorem c10_auto_disconnect (images images2 : List GeneratedImage) (c : ConsoleState)
    (hpos : 0 < c.expectedImageCount)
    (hdone : c.expectedImageCount ≤ succeededCount images) :
    (autoDisconnect images c).1.expectedImageCount = 0
  ∧ (autoDisconnect images c).1.ws = (disconnect c.ws).1
  ∧ (autoDisconnect images c).2 = (disconnect c.ws).2
  ∧ (∀ sock, c.ws.wsRef = some sock →
      Effect.closeCalled sock (some 1000) ∈ (autoDisconnect images c).2)
  ∧ autoDisconnect images2 (autoDisconnect images c).1 = ((autoDisconnect images c).1, []) := by
  have hif : autoDisconnect images c
      = ({ expectedImageCount := 0, ws := (disconnect c.ws).1 }, (disconnect c.ws).2) := by
    unfold autoDisconnect
    rw [if_pos ⟨hpos, hdone⟩]
  refine ⟨by rw [hif], by rw [hif], by rw [hif], ?_, ?_⟩
  · intro sock hsock
    rw [hif]
    exact disconnect_closes_cleanly c.ws sock hsock
  · rw [hif]
    unfold autoDisconnect
    rw [if_neg (by simp)]

/-- C10 (witness): with one expected image and one succeeded record, the
effect fires: the expected count is zeroed and the open transport gets the
clean close. -/
theorem c10_auto_disconnect_witness :
    (autoDisconnect [{ prediction_id := "a", status := Status.succeeded, urls := ["u1"] }]
        ⟨1, ⟨true, none, some ⟨0, "j"⟩, none, [], 0, 1, 0⟩⟩).1.expectedImageCount = 0
  ∧ Effect.closeCalled ⟨0, "j"⟩ (some 1000)
      ∈ (autoDisconnect [{ prediction_id := "a", status := Status.succeeded, urls := ["u1"] }]
          ⟨1, ⟨true, none, some ⟨0, "j"⟩, none, [], 0, 1, 0⟩⟩).2 :=
  ⟨(c10_auto_disconnect
      [{ prediction_id := "a", status := Status.succeeded, urls := ["u1"] }] []
      ⟨1, ⟨true, none, some ⟨0, "j"⟩, none, [], 0, 1, 0⟩⟩ (by decide) (by decide)).1,
    (c10_auto_disconnect
      [{ prediction_id := "a", status := Status.succeeded, urls := ["u1"] }] []
      ⟨1, ⟨true, none, some ⟨0, "j"⟩, none, [], 0, 1, 0⟩⟩ (by decide) (by decide)).2.2.2.1
      ⟨0, "j"⟩ rfl⟩

end AbyFrontend
